import Mathlib

/-!
Verification of the public/QR route classifier and the anonymous
engagement ("like") tracker of the ApopetV1.0 front-end.

The definitions below are a shallow embedding of:
  * `detectPublicRoute` in `src/components/public-view-router.tsx`
    (the regex `(?:\/ApopetV1.0)?\/pet\/([a-f0-9-]{36})$` with flag `i`,
    applied via `path.match` to `window.location.pathname`);
  * the `usePetLikes` hook (`likePet`, `unlikePet`, `toggleLike`,
    `getVisitorId`) in `hooks/use-pet-likes.ts`;
  * the record of fields returned by `usePetLikes` and the record of
    fields destructured from it by `components/public-pet-profile.tsx`.
-/

/-- A character admitted by the regex character class `[a-f0-9]` under the
case-insensitive flag `i`: a decimal digit or a hexadecimal letter. -/
def isHexLike (c : Char) : Bool :=
  ('0' ≤ c && c ≤ '9') || ('a' ≤ c && c ≤ 'f') || ('A' ≤ c && c ≤ 'F')

/-- A character admitted by the regex character class `[a-f0-9-]` under the
case-insensitive flag `i`. -/
def petRouteChar (c : Char) : Bool :=
  isHexLike c || c == '-'

/-- The literal segment `/pet/` of the route pattern, as a character list. -/
def petSegment : List Char := '/' :: 'p' :: 'e' :: 't' :: '/' :: []

/-- Core of `detectPublicRoute` on character lists.  The source regex is
`(?:\/ApopetV1.0)?\/pet\/([a-f0-9-]{36})$` with flag `i`, searched (not
anchored on the left) in the pathname by `String.prototype.match`.  Because
the prefix group is optional and the pattern is unanchored on the left, the
regex matches a string `cs` iff `cs` ends with a case-insensitive match of
the literal `/pet/` — the `i` flag case-folds the literal too, so `/PET/` or
`/Pet/` also match, modeled by comparing after `Char.toLower` (the only case
variants of `p`, `e`, `t` are their ASCII upper cases) — followed by 36
characters of the class `[a-f0-9-]` (case-insensitive); the capture group,
being delimited by `$`, is always those final 36 characters. -/
def detectPublicRouteL (cs : List Char) : Option (List Char) :=
  if 41 ≤ cs.length
      ∧ ((cs.drop (cs.length - 41)).take 5).map Char.toLower = petSegment
      ∧ (cs.drop (cs.length - 36)).all petRouteChar = true then
    some (cs.drop (cs.length - 36))
  else
    none

/-- `detectPublicRoute` from `public-view-router.tsx`: matches the current
pathname against the public-pet-route regex and returns the captured
36-character identifier, or `none` when the regex does not match. -/
def detectPublicRoute (path : String) : Option String :=
  (detectPublicRouteL path.data).map String.mk

/-- The canonical UUID shape named by the spec: 36 characters arranged as
8-4-4-4-12 hexadecimal digits (either letter case) separated by hyphens at
positions 8, 13, 18 and 23. -/
def isCanonicalUUID (s : String) : Bool :=
  s.data.length == 36 &&
  (List.range 36).all (fun i =>
    if i = 8 ∨ i = 13 ∨ i = 18 ∨ i = 23 then s.data.getD i ' ' == '-'
    else isHexLike (s.data.getD i ' '))

theorem petSegment_eq : "/pet/".data = petSegment := by decide

theorem detectL_append (p seg id : List Char)
    (hseg : seg.map Char.toLower = petSegment) (h36 : id.length = 36)
    (hall : id.all petRouteChar = true) :
    detectPublicRouteL (p ++ seg ++ id) = some id := by
  have hs5 : seg.length = 5 := by
    have hx := congrArg List.length hseg
    simpa using hx
  have hn : (p ++ seg ++ id).length = p.length + 41 := by
    rw [List.length_append, List.length_append, hs5, h36]
  have hd41 : (p ++ seg ++ id).drop (p.length + 41 - 41) = seg ++ id := by
    have h : p.length + 41 - 41 = p.length := by omega
    rw [h, List.append_assoc, List.drop_left]
  have hd36 : (p ++ seg ++ id).drop (p.length + 41 - 36) = id := by
    have h5 : (p ++ seg).length = p.length + 5 := by
      rw [List.length_append, hs5]
    have h : p.length + 41 - 36 = (p ++ seg).length := by omega
    rw [h, List.drop_left]
  have htake : (seg ++ id).take 5 = seg := by
    rw [← hs5, List.take_left]
  unfold detectPublicRouteL
  rw [hn, hd41, hd36, htake, if_pos ⟨by omega, hseg, hall⟩]

theorem detectL_some_decomp (cs id : List Char)
    (h : detectPublicRouteL cs = some id) :
    ∃ p seg : List Char, cs = p ++ seg ++ id
      ∧ seg.map Char.toLower = petSegment ∧ id.length = 36
      ∧ id.all petRouteChar = true := by
  unfold detectPublicRouteL at h
  by_cases hc : 41 ≤ cs.length
      ∧ ((cs.drop (cs.length - 41)).take 5).map Char.toLower = petSegment
      ∧ (cs.drop (cs.length - 36)).all petRouteChar = true
  · rw [if_pos hc] at h
    obtain ⟨hn, hseg, hall⟩ := hc
    have hid : id = cs.drop (cs.length - 36) := by
      injection h with h; exact h.symm
    subst hid
    refine ⟨cs.take (cs.length - 41), (cs.drop (cs.length - 41)).take 5,
      ?_, hseg, ?_, hall⟩
    · conv_lhs => rw [← List.take_append_drop (cs.length - 41) cs]
      rw [List.append_assoc]
      congr 1
      conv_lhs => rw [← List.take_append_drop 5 (cs.drop (cs.length - 41))]
      rw [List.drop_drop]
      congr 2
      omega
    · rw [List.length_drop]; omega
  · rw [if_neg hc] at h; exact absurd h (by simp)

theorem isHexLike_petRouteChar (c : Char) (h : isHexLike c = true) :
    petRouteChar c = true := by
  simp [petRouteChar, h]

theorem canonicalUUID_shape (u : String) (h : isCanonicalUUID u = true) :
    u.data.length = 36 ∧ u.data.all petRouteChar = true := by
  unfold isCanonicalUUID at h
  rw [Bool.and_eq_true] at h
  obtain ⟨hlen, hall⟩ := h
  have hlen' : u.data.length = 36 := by simpa using hlen
  refine ⟨hlen', ?_⟩
  rw [List.all_eq_true]
  intro c hc
  rw [List.mem_iff_getElem] at hc
  obtain ⟨i, hi, hgi⟩ := hc
  have hi36 : i < 36 := by omega
  have hrange := (List.all_eq_true).1 hall i (List.mem_range.2 hi36)
  have hgetD : u.data.getD i ' ' = c := by
    rw [List.getD_eq_getElem u.data ' ' hi, hgi]
  rw [hgetD] at hrange
  by_cases hsep : i = 8 ∨ i = 13 ∨ i = 18 ∨ i = 23
  · rw [if_pos hsep] at hrange
    have hcm : c = '-' := by simpa using hrange
    subst hcm
    decide
  · rw [if_neg hsep] at hrange
    exact isHexLike_petRouteChar c hrange

theorem detect_append_seg (p seg id : String)
    (hseg : seg.data.map Char.toLower = petSegment)
    (h36 : id.data.length = 36) (hall : id.data.all petRouteChar = true) :
    detectPublicRoute (p ++ seg ++ id) = some id := by
  unfold detectPublicRoute
  rw [String.data_append, String.data_append,
    detectL_append _ _ _ hseg h36 hall]
  rfl

theorem detect_append_string (p id : String) (h36 : id.data.length = 36)
    (hall : id.data.all petRouteChar = true) :
    detectPublicRoute (p ++ "/pet/" ++ id) = some id :=
  detect_append_seg p "/pet/" id (by decide) h36 hall

/-- Fidelity check for the `i` flag on the literal segment: the source
classifier matches a case-variant `/PET/` segment, and so does the model. -/
theorem detectPublicRoute_segment_case_insensitive :
    detectPublicRoute "/PET/aaaaaaaaaaaaaaaaaaaaaaaaaaaaaaaaaaaa"
      = some "aaaaaaaaaaaaaaaaaaaaaaaaaaaaaaaaaaaa" := by
  decide

/-- C7: every path of the form `[<prefix>/]pet/<uuid>`, where `<uuid>` is a
36-character identifier of the canonical UUID shape (8-4-4-4-12 hexadecimal
digits, in either letter case), is matched by the route classifier
`detectPublicRoute`, and the extracted entity identifier is exactly the UUID
segment. -/
theorem detectPublicRoute_matches_canonical (p u : String)
    (h : isCanonicalUUID u = true) :
    detectPublicRoute (p ++ "/pet/" ++ u) = some u := by
  obtain ⟨h36, hall⟩ := canonicalUUID_shape u h
  exact detect_append_string p u h36 hall

theorem detectPublicRoute_matches_canonical_witness :
    isCanonicalUUID "123e4567-e89b-12d3-a456-426614174000" = true ∧
    detectPublicRoute
        ("/ApopetV1.0" ++ "/pet/" ++ "123e4567-e89b-12d3-a456-426614174000")
      = some "123e4567-e89b-12d3-a456-426614174000" :=
  ⟨by decide,
   detectPublicRoute_matches_canonical "/ApopetV1.0"
     "123e4567-e89b-12d3-a456-426614174000" (by decide)⟩

/-- C8 counterexample: the path `/pet/aaaaaaaaaaaaaaaaaaaaaaaaaaaaaaaaaaaa`
has no canonical UUID-shaped (8-4-4-4-12) segment after `/pet/` — its final
segment is 36 hexadecimal characters with no hyphens — yet the route
classifier matches it, because the source regex checks only the character
class `[a-f0-9-]{36}`, not the hyphen grouping.  This refutes the claim that
every such path yields `matched: false`. -/
theorem detectPublicRoute_accepts_noncanonical :
    isCanonicalUUID "aaaaaaaaaaaaaaaaaaaaaaaaaaaaaaaaaaaa" = false ∧
    detectPublicRoute "/pet/aaaaaaaaaaaaaaaaaaaaaaaaaaaaaaaaaaaa"
      = some "aaaaaaaaaaaaaaaaaaaaaaaaaaaaaaaaaaaa" := by
  constructor
  · decide
  · decide

/-- C8 (amended): the route classifier returns `matched: false` exactly for
the paths that do not end with a case-insensitive `/pet/` segment followed
by 36 characters drawn from the class of hexadecimal digits (either case)
and hyphens; the 8-4-4-4-12 hyphen grouping of a canonical UUID is not
checked. -/
theorem detectPublicRoute_none_iff (path : String) :
    detectPublicRoute path = none ↔
      ¬ ∃ p seg id : String, path = p ++ seg ++ id
        ∧ seg.data.map Char.toLower = petSegment
        ∧ id.data.length = 36 ∧ id.data.all petRouteChar = true := by
  constructor
  · rintro hnone ⟨p, seg, id, rfl, hseg, h36, hall⟩
    rw [detect_append_seg p seg id hseg h36 hall] at hnone
    exact Option.noConfusion hnone
  · intro hno
    cases hopt : detectPublicRoute path with
    | none => rfl
    | some s =>
      exfalso
      unfold detectPublicRoute at hopt
      rw [Option.map_eq_some'] at hopt
      obtain ⟨l, hl, hs⟩ := hopt
      obtain ⟨pl, sl, hcs, hsl, h36, hall⟩ := detectL_some_decomp path.data l hl
      refine hno ⟨String.mk pl, String.mk sl, String.mk l, ?_, hsl, h36, hall⟩
      apply String.ext
      rw [String.data_append, String.data_append]
      exact hcs

/-- A character that may appear in the pathname portion of a location: by the
URL standard, `window.location.pathname` (the input read by
`detectPublicRoute` in the source) ends where the query string (`?`) or
fragment (`#`) begins. -/
def notQueryFragChar (c : Char) : Bool :=
  !(c == '?' || c == '#')

/-- The pathname of a location string (path plus optional query string and
fragment): everything before the first `?` or `#`.  Models how the browser
populates `window.location.pathname`, which is what the source's
`detectPublicRoute` reads. -/
def pathnameOf (loc : String) : String :=
  String.mk (loc.data.takeWhile notQueryFragChar)

/-- The route classifier as seen from a full location: the browser strips
the query string and fragment into `location.search` / `location.hash`, and
`detectPublicRoute` matches only `location.pathname`. -/
def detectPublicRouteFromLocation (loc : String) : Option String :=
  detectPublicRoute (pathnameOf loc)

theorem takeWhile_append_all {α : Type} (p : α → Bool) :
    ∀ (a b : List α), a.all p = true →
      (a ++ b).takeWhile p = a ++ b.takeWhile p
  | [], _, _ => by simp
  | x :: a, b, h => by
    rw [List.all_cons, Bool.and_eq_true] at h
    simp only [List.cons_append, List.takeWhile_cons, h.1, if_true]
    rw [takeWhile_append_all p a b h.2]

theorem takeWhile_all_self {α : Type} (p : α → Bool) (a : List α)
    (h : a.all p = true) : a.takeWhile p = a := by
  have hx := takeWhile_append_all p a [] h
  simpa using hx

theorem petRouteChar_notQF (c : Char) (h : petRouteChar c = true) :
    notQueryFragChar c = true := by
  by_cases h1 : c = '?'
  · subst h1; exact absurd h (by decide)
  by_cases h2 : c = '#'
  · subst h2; exact absurd h (by decide)
  simp [notQueryFragChar, h1, h2]

theorem detectL_snoc_char (cs : List Char) (c : Char) (l : List Char)
    (h : detectPublicRouteL (cs ++ [c]) = some l) : petRouteChar c = true := by
  obtain ⟨p, seg, hcs, hseg, h36, hall⟩ := detectL_some_decomp _ _ h
  have h1 : (p ++ seg ++ l).getLast? = some c := by
    rw [← hcs]; exact List.getLast?_concat cs
  cases hd : l.getLast? with
  | none =>
    rw [List.getLast?_eq_none_iff] at hd
    rw [hd] at h36; simp at h36
  | some d =>
    rw [List.getLast?_append, List.getLast?_append, hd] at h1
    simp only [Option.or_some, Option.some.injEq] at h1
    obtain ⟨ys, hys⟩ := List.getLast?_eq_some_iff.1 hd
    have hmem : c ∈ l := by rw [hys, ← h1]; simp
    exact (List.all_eq_true.1 hall) c hmem

/-- C9 counterexample: a path whose identifier segment is a canonical UUID
but which carries a trailing slash is NOT matched by the route classifier —
the source regex ends with `([a-f0-9-]{36})$`, so the identifier must be the
final characters of the pathname and the trailing `/` defeats the match.
This refutes the claim that a trailing slash still yields `matched: true`. -/
theorem detectPublicRoute_trailing_slash_fails :
    isCanonicalUUID "123e4567-e89b-12d3-a456-426614174000" = true ∧
    detectPublicRouteFromLocation
        "/pet/123e4567-e89b-12d3-a456-426614174000/" = none := by
  constructor
  · decide
  · decide

/-- C9 (amended): a query string or fragment after the identifier does not
defeat the match — the browser excludes them from `location.pathname`, the
only input the classifier reads — so such locations still yield
`matched: true` with the identifier extracted; a trailing slash, however,
makes the classifier return `matched: false`, because the regex anchors the
36-character identifier at the end of the pathname. -/
theorem detectPublicRoute_query_fragment_ok (p u rest : String)
    (hu : isCanonicalUUID u = true)
    (hp : p.data.all notQueryFragChar = true)
    (hrest : rest = "" ∨ rest.data.head? = some '?'
      ∨ rest.data.head? = some '#') :
    detectPublicRouteFromLocation (p ++ "/pet/" ++ u ++ rest) = some u ∧
    detectPublicRouteFromLocation (p ++ "/pet/" ++ u ++ "/") = none := by
  obtain ⟨h36, hall⟩ := canonicalUUID_shape u hu
  have hu' : u.data.all notQueryFragChar = true := by
    rw [List.all_eq_true] at hall ⊢
    exact fun c hc => petRouteChar_notQF c (hall c hc)
  have hseg : "/pet/".data.all notQueryFragChar = true := by decide
  have hpre : (p ++ "/pet/" ++ u).data.all notQueryFragChar = true := by
    rw [String.data_append, String.data_append]
    simp [List.all_append, hp, hseg, hu',
      List.all_eq_true.1 hp, List.all_eq_true.1 hseg, List.all_eq_true.1 hu']
  constructor
  · have hrest' : rest.data.takeWhile notQueryFragChar = [] := by
      rcases hrest with h | h | h
      · subst h; decide
      · cases hd : rest.data with
        | nil => rfl
        | cons c t =>
          rw [hd] at h
          simp only [List.head?_cons, Option.some.injEq] at h
          subst h
          have hq : notQueryFragChar '?' = false := by decide
          simp [List.takeWhile_cons, hq]
      · cases hd : rest.data with
        | nil => rfl
        | cons c t =>
          rw [hd] at h
          simp only [List.head?_cons, Option.some.injEq] at h
          subst h
          have hq : notQueryFragChar '#' = false := by decide
          simp [List.takeWhile_cons, hq]
    have hpath : pathnameOf (p ++ "/pet/" ++ u ++ rest) = p ++ "/pet/" ++ u := by
      unfold pathnameOf
      rw [String.data_append (p ++ "/pet/" ++ u) rest,
        takeWhile_append_all _ _ _ hpre, hrest', List.append_nil]
    unfold detectPublicRouteFromLocation
    rw [hpath]
    exact detect_append_string p u h36 hall
  · have hslash : pathnameOf (p ++ "/pet/" ++ u ++ "/")
        = p ++ "/pet/" ++ u ++ "/" := by
      unfold pathnameOf
      have hws : (p ++ "/pet/" ++ u ++ "/").data.all notQueryFragChar = true := by
        rw [String.data_append (p ++ "/pet/" ++ u) "/", List.all_append, hpre]
        decide
      rw [takeWhile_all_self _ _ hws]
    unfold detectPublicRouteFromLocation
    rw [hslash]
    cases hopt : detectPublicRoute (p ++ "/pet/" ++ u ++ "/") with
    | none => rfl
    | some s =>
      exfalso
      unfold detectPublicRoute at hopt
      rw [Option.map_eq_some'] at hopt
      obtain ⟨l, hl, -⟩ := hopt
      have hdata : (p ++ "/pet/" ++ u ++ "/").data
          = (p ++ "/pet/" ++ u).data ++ ['/'] := by
        rw [String.data_append (p ++ "/pet/" ++ u) "/"]
      rw [hdata] at hl
      have := detectL_snoc_char _ _ _ hl
      exact absurd this (by decide)

theorem detectPublicRoute_query_fragment_ok_witness :
    (isCanonicalUUID "123e4567-e89b-12d3-a456-426614174000" = true ∧
      "".data.all notQueryFragChar = true ∧
      ("?ref=qr" : String).data.head? = some '?') ∧
    (detectPublicRouteFromLocation
        ("" ++ "/pet/" ++ "123e4567-e89b-12d3-a456-426614174000" ++ "?ref=qr")
        = some "123e4567-e89b-12d3-a456-426614174000" ∧
      detectPublicRouteFromLocation
        ("" ++ "/pet/" ++ "123e4567-e89b-12d3-a456-426614174000" ++ "/")
        = none) :=
  ⟨⟨by decide, by decide, by decide⟩,
   detectPublicRoute_query_fragment_ok ""
     "123e4567-e89b-12d3-a456-426614174000" "?ref=qr" (by decide) (by decide)
     (Or.inr (Or.inl (by decide)))⟩

/-- The local state held by the `usePetLikes` hook: `stats.likesCount` and
`stats.isLiked` (the `PetLikeStats` record of the source), together with the
`loading` and `processing` flags.  The count is an integer because the source
stores a JavaScript number and explicitly floors the decrement at 0 with
`Math.max(0, prev.likesCount - 1)`. -/
structure TrackerState where
  likesCount : Int
  isLiked : Bool
  loading : Bool
  processing : Bool
deriving DecidableEq, Repr

/-- Outcome of the store insert into `pet_likes` issued by `likePet`:
success, a uniqueness-conflict error (Postgres code `23505`), or any other
error. -/
inductive InsertResult where
  | ok
  | conflict
  | err
deriving DecidableEq, Repr

/-- Outcome of the store delete from `pet_likes` issued by `unlikePet`. -/
inductive DeleteResult where
  | ok
  | err
deriving DecidableEq, Repr

/-- Observable result of one tracker operation: the state after the
operation settles, the boolean the async function returns, whether an
error-level toast was surfaced to the user (`toast.error`; the conflict path
shows only `toast.info`), and how many store mutations (inserts into or
deletes from `pet_likes`) were issued. -/
structure OpResult where
  st : TrackerState
  ok : Bool
  errorToast : Bool
  mutations : Nat
deriving DecidableEq, Repr

/-- `likePet` from `usePetLikes`: returns early with `toast.error` when
`petId` is empty; otherwise sets `processing`, inserts into `pet_likes`, and
on success increments the local count and sets the like-flag; on a `23505`
uniqueness conflict sets only the like-flag (`toast.info`, count unchanged);
on any other error leaves the stats unchanged and shows `toast.error`.  The
`finally` block clears `processing`. -/
def likePet (petId : String) (st : TrackerState) (r : InsertResult) : OpResult :=
  if petId = "" then
    ⟨st, false, true, 0⟩
  else
    match r with
    | .ok =>
        ⟨{ st with
            likesCount := st.likesCount + 1
            isLiked := true
            processing := false }, true, false, 1⟩
    | .conflict =>
        ⟨{ st with isLiked := true, processing := false }, false, false, 1⟩
    | .err =>
        ⟨{ st with processing := false }, false, true, 1⟩

/-- `unlikePet` from `usePetLikes`: returns early with `toast.error` when
`petId` is empty; otherwise sets `processing`, deletes from `pet_likes`, and
on success sets the count to `Math.max(0, prev.likesCount - 1)` and clears
the like-flag; on error leaves the stats unchanged and shows `toast.error`.
The `finally` block clears `processing`. -/
def unlikePet (petId : String) (st : TrackerState) (r : DeleteResult) : OpResult :=
  if petId = "" then
    ⟨st, false, true, 0⟩
  else
    match r with
    | .ok =>
        ⟨{ st with
            likesCount := max 0 (st.likesCount - 1)
            isLiked := false
            processing := false }, true, false, 1⟩
    | .err =>
        ⟨{ st with processing := false }, false, true, 1⟩

/-- `toggleLike` from `usePetLikes`: `if (processing) return false` — no
state change, no store mutation — otherwise dispatches to `unlikePet` or
`likePet` according to the current like-flag. -/
def toggleLike (petId : String) (st : TrackerState)
    (rIns : InsertResult) (rDel : DeleteResult) : OpResult :=
  if st.processing then
    ⟨st, false, false, 0⟩
  else if st.isLiked then
    unlikePet petId st rDel
  else
    likePet petId st rIns

/-- C1: a `toggle` call made while a previous toggle is still in flight
(`processing = true`) returns immediately — unchanged state, `false` result,
zero store mutations — so of two toggle calls in rapid succession where the
first found the tracker idle and the second found it `processing`, exactly
one store mutation is issued in total, whatever the store outcomes are. -/
theorem toggleLike_reentrant_single_mutation (petId : String)
    (st₁ st₂ : TrackerState) (r₁ r₂ : InsertResult) (d₁ d₂ : DeleteResult)
    (hid : petId ≠ "") (h₁ : st₁.processing = false)
    (h₂ : st₂.processing = true) :
    toggleLike petId st₂ r₂ d₂ = ⟨st₂, false, false, 0⟩ ∧
    (toggleLike petId st₁ r₁ d₁).mutations
      + (toggleLike petId st₂ r₂ d₂).mutations = 1 := by
  have hsecond : toggleLike petId st₂ r₂ d₂ = ⟨st₂, false, false, 0⟩ := by
    unfold toggleLike
    rw [if_pos h₂]
  refine ⟨hsecond, ?_⟩
  rw [hsecond]
  have hfirst : (toggleLike petId st₁ r₁ d₁).mutations = 1 := by
    unfold toggleLike
    rw [if_neg (by rw [h₁]; exact Bool.false_ne_true)]
    cases hl : st₁.isLiked with
    | true =>
      rw [if_pos rfl]
      unfold unlikePet
      rw [if_neg hid]
      cases d₁ <;> rfl
    | false =>
      rw [if_neg Bool.false_ne_true]
      unfold likePet
      rw [if_neg hid]
      cases r₁ <;> rfl
  rw [hfirst]
  rfl

theorem toggleLike_reentrant_single_mutation_witness :
    (("pet-1" : String) ≠ "" ∧
      (⟨7, false, false, false⟩ : TrackerState).processing = false ∧
      (⟨7, false, false, true⟩ : TrackerState).processing = true) ∧
    (toggleLike "pet-1" ⟨7, false, false, true⟩ InsertResult.ok DeleteResult.ok
        = ⟨⟨7, false, false, true⟩, false, false, 0⟩ ∧
      (toggleLike "pet-1" ⟨7, false, false, false⟩ InsertResult.ok
          DeleteResult.ok).mutations
        + (toggleLike "pet-1" ⟨7, false, false, true⟩ InsertResult.ok
          DeleteResult.ok).mutations = 1) :=
  ⟨⟨by decide, rfl, rfl⟩,
   toggleLike_reentrant_single_mutation "pet-1"
     ⟨7, false, false, false⟩ ⟨7, false, false, true⟩
     InsertResult.ok InsertResult.ok DeleteResult.ok DeleteResult.ok
     (by decide) rfl rfl⟩

/-- C2: when the store insert of `likePet` reports a uniqueness-conflict
(duplicate) error — Postgres code `23505` — the tracker sets the like-flag
to true, leaves the displayed count unchanged (no additional +1), and does
not surface the conflict to the user as a failure (only `toast.info`, no
`toast.error`). -/
theorem likePet_conflict_recovered (petId : String) (st : TrackerState)
    (hid : petId ≠ "") :
    (likePet petId st InsertResult.conflict).st.isLiked = true ∧
    (likePet petId st InsertResult.conflict).st.likesCount = st.likesCount ∧
    (likePet petId st InsertResult.conflict).errorToast = false := by
  unfold likePet
  rw [if_neg hid]
  exact ⟨rfl, rfl, rfl⟩

theorem likePet_conflict_recovered_witness :
    (("pet-1" : String) ≠ "") ∧
    ((likePet "pet-1" ⟨7, false, false, false⟩
        InsertResult.conflict).st.isLiked = true ∧
      (likePet "pet-1" ⟨7, false, false, false⟩
        InsertResult.conflict).st.likesCount = 7 ∧
      (likePet "pet-1" ⟨7, false, false, false⟩
        InsertResult.conflict).errorToast = false) :=
  ⟨by decide,
   likePet_conflict_recovered "pet-1" ⟨7, false, false, false⟩ (by decide)⟩

/-- C4: from a `ready` tracker state (`loading = false`, `processing =
false`) with the like-flag false, a successful `likePet` increments the
locally displayed count by exactly 1 and sets the like-flag to true. -/
theorem likePet_success_increments (petId : String) (st : TrackerState)
    (hid : petId ≠ "") (hload : st.loading = false)
    (hproc : st.processing = false) (hflag : st.isLiked = false) :
    (likePet petId st InsertResult.ok).st.likesCount = st.likesCount + 1 ∧
    (likePet petId st InsertResult.ok).st.isLiked = true := by
  unfold likePet
  rw [if_neg hid]
  exact ⟨rfl, rfl⟩

theorem likePet_success_increments_witness :
    (("pet-1" : String) ≠ "" ∧
      (⟨7, false, false, false⟩ : TrackerState).loading = false ∧
      (⟨7, false, false, false⟩ : TrackerState).processing = false ∧
      (⟨7, false, false, false⟩ : TrackerState).isLiked = false) ∧
    ((likePet "pet-1" ⟨7, false, false, false⟩
        InsertResult.ok).st.likesCount = 7 + 1 ∧
      (likePet "pet-1" ⟨7, false, false, false⟩
        InsertResult.ok).st.isLiked = true) :=
  ⟨⟨by decide, rfl, rfl, rfl⟩,
   likePet_success_increments "pet-1" ⟨7, false, false, false⟩
     (by decide) rfl rfl rfl⟩

/-- C5: with the like-flag true, a successful `unlikePet` decrements the
locally displayed count by 1 floored at 0 and clears the like-flag; for
every local count value — 0 and even negative drifted values included — the
displayed count after the unlike is never negative. -/
theorem unlikePet_floors_at_zero (petId : String) (st : TrackerState)
    (hid : petId ≠ "") (hflag : st.isLiked = true) :
    (st.likesCount ≤ 0 →
      (unlikePet petId st DeleteResult.ok).st.likesCount = 0) ∧
    (0 < st.likesCount →
      (unlikePet petId st DeleteResult.ok).st.likesCount
        = st.likesCount - 1) ∧
    0 ≤ (unlikePet petId st DeleteResult.ok).st.likesCount ∧
    (unlikePet petId st DeleteResult.ok).st.isLiked = false := by
  unfold unlikePet
  rw [if_neg hid]
  refine ⟨fun h => ?_, fun h => ?_, ?_, rfl⟩
  · simp only
    omega
  · simp only
    omega
  · simp only
    omega

theorem unlikePet_floors_at_zero_witness :
    (("pet-1" : String) ≠ "" ∧
      (⟨0, true, false, false⟩ : TrackerState).isLiked = true) ∧
    (((⟨0, true, false, false⟩ : TrackerState).likesCount ≤ 0 →
        (unlikePet "pet-1" ⟨0, true, false, false⟩
          DeleteResult.ok).st.likesCount = 0) ∧
      (0 < (⟨0, true, false, false⟩ : TrackerState).likesCount →
        (unlikePet "pet-1" ⟨0, true, false, false⟩
          DeleteResult.ok).st.likesCount
          = (⟨0, true, false, false⟩ : TrackerState).likesCount - 1) ∧
      0 ≤ (unlikePet "pet-1" ⟨0, true, false, false⟩
        DeleteResult.ok).st.likesCount ∧
      (unlikePet "pet-1" ⟨0, true, false, false⟩
        DeleteResult.ok).st.isLiked = false) :=
  ⟨⟨by decide, rfl⟩,
   unlikePet_floors_at_zero "pet-1" ⟨0, true, false, false⟩ (by decide) rfl⟩

/-- C6: on a freshly-`ready` tracker (`loading = false`, `processing =
false`, like-flag false, non-negative fetched count), a successful `likePet`
followed by a successful `unlikePet` restores the entire tracker state —
like-flag and displayed count included — to its value before the sequence. -/
theorem like_unlike_roundtrip (petId : String) (st : TrackerState)
    (hid : petId ≠ "") (hload : st.loading = false)
    (hproc : st.processing = false) (hflag : st.isLiked = false)
    (hpos : 0 ≤ st.likesCount) :
    (unlikePet petId (likePet petId st InsertResult.ok).st
      DeleteResult.ok).st = st := by
  unfold likePet unlikePet
  rw [if_neg hid, if_neg hid]
  simp only
  have hmax : max 0 (st.likesCount + 1 - 1) = st.likesCount := by omega
  cases st with
  | mk c l ld pr =>
    simp only at hflag hproc hmax ⊢
    rw [hmax, hflag, hproc]

theorem like_unlike_roundtrip_witness :
    (("pet-1" : String) ≠ "" ∧
      (⟨7, false, false, false⟩ : TrackerState).loading = false ∧
      (⟨7, false, false, false⟩ : TrackerState).processing = false ∧
      (⟨7, false, false, false⟩ : TrackerState).isLiked = false ∧
      0 ≤ (⟨7, false, false, false⟩ : TrackerState).likesCount) ∧
    (unlikePet "pet-1" (likePet "pet-1" ⟨7, false, false, false⟩
        InsertResult.ok).st DeleteResult.ok).st
      = (⟨7, false, false, false⟩ : TrackerState) :=
  ⟨⟨by decide, rfl, rfl, rfl, by decide⟩,
   like_unlike_roundtrip "pet-1" ⟨7, false, false, false⟩
     (by decide) rfl rfl rfl (by decide)⟩

/-- The token generated by `getVisitorId` when none is stored:
`visitor_<Date.now()>_<random base-36 suffix>`. -/
def genVisitorId (now : Nat) (rand : String) : String :=
  "visitor_" ++ toString now ++ "_" ++ rand

/-- `getVisitorId` from `usePetLikes`: reads the `visitor_id` key from
`localStorage` (modeled as `Option String`, `none` = key absent); when the
stored value is JavaScript-falsy (absent or the empty string), generates a
fresh token from the clock and a random suffix and persists it with
`setItem` before returning it; otherwise returns the stored token
unchanged.  The result pairs the returned token with the storage contents
after the call. -/
def getVisitorId (stored : Option String) (now : Nat) (rand : String) :
    String × Option String :=
  match stored with
  | none => (genVisitorId now rand, some (genVisitorId now rand))
  | some v =>
      if v = "" then (genVisitorId now rand, some (genVisitorId now rand))
      else (v, some v)

theorem genVisitorId_ne_empty (now : Nat) (rand : String) :
    genVisitorId now rand ≠ "" := by
  intro h
  have hd : (genVisitorId now rand).data = [] := by rw [h]
  rw [genVisitorId, String.data_append, String.data_append,
    String.data_append] at hd
  simp only [List.append_eq_nil] at hd
  exact absurd hd.1.1.1 (by decide)

/-- C10: the visitor-identity getter is idempotent — for every storage state
(key absent, empty, or populated) two successive calls without clearing
storage return the same token — and the storage after the first call holds
exactly the token that call returned, so a freshly generated token is
persisted before use and the second call reads it back instead of
regenerating. -/
theorem getVisitorId_idempotent_persists (stored : Option String)
    (n₁ n₂ : Nat) (r₁ r₂ : String) :
    (getVisitorId stored n₁ r₁).2 = some (getVisitorId stored n₁ r₁).1 ∧
    (getVisitorId (getVisitorId stored n₁ r₁).2 n₂ r₂).1
      = (getVisitorId stored n₁ r₁).1 ∧
    (getVisitorId (getVisitorId stored n₁ r₁).2 n₂ r₂).2
      = (getVisitorId stored n₁ r₁).2 := by
  have hne := genVisitorId_ne_empty n₁ r₁
  cases stored with
  | none =>
    have e1 : getVisitorId none n₁ r₁
        = (genVisitorId n₁ r₁, some (genVisitorId n₁ r₁)) := rfl
    have e2 : getVisitorId (getVisitorId none n₁ r₁).2 n₂ r₂
        = (genVisitorId n₁ r₁, some (genVisitorId n₁ r₁)) := by
      show (if genVisitorId n₁ r₁ = "" then
          (genVisitorId n₂ r₂, some (genVisitorId n₂ r₂))
        else (genVisitorId n₁ r₁, some (genVisitorId n₁ r₁)))
        = (genVisitorId n₁ r₁, some (genVisitorId n₁ r₁))
      rw [if_neg hne]
    rw [e2, e1]
    exact ⟨rfl, rfl, rfl⟩
  | some v =>
    by_cases hv : v = ""
    · subst hv
      have e1 : getVisitorId (some "") n₁ r₁
          = (genVisitorId n₁ r₁, some (genVisitorId n₁ r₁)) := by
        show (if ("" : String) = "" then
            (genVisitorId n₁ r₁, some (genVisitorId n₁ r₁))
          else ("", some ""))
          = (genVisitorId n₁ r₁, some (genVisitorId n₁ r₁))
        rw [if_pos rfl]
      have e2 : getVisitorId (getVisitorId (some "") n₁ r₁).2 n₂ r₂
          = (genVisitorId n₁ r₁, some (genVisitorId n₁ r₁)) := by
        rw [e1]
        show (if genVisitorId n₁ r₁ = "" then
            (genVisitorId n₂ r₂, some (genVisitorId n₂ r₂))
          else (genVisitorId n₁ r₁, some (genVisitorId n₁ r₁)))
          = (genVisitorId n₁ r₁, some (genVisitorId n₁ r₁))
        rw [if_neg hne]
      rw [e2, e1]
      exact ⟨rfl, rfl, rfl⟩
    · have e1 : getVisitorId (some v) n₁ r₁ = (v, some v) := by
        show (if v = "" then
            (genVisitorId n₁ r₁, some (genVisitorId n₁ r₁))
          else (v, some v)) = (v, some v)
        rw [if_neg hv]
      have e2 : getVisitorId (getVisitorId (some v) n₁ r₁).2 n₂ r₂
          = (v, some v) := by
        rw [e1]
        show (if v = "" then
            (genVisitorId n₂ r₂, some (genVisitorId n₂ r₂))
          else (v, some v)) = (v, some v)
        rw [if_neg hv]
      rw [e2, e1]
      exact ⟨rfl, rfl, rfl⟩

/-- The names of the fields of the record returned by the `usePetLikes`
hook: `return { likesCount, isLiked, loading, processing, likePet,
unlikePet, toggleLike, refresh }`. -/
def usePetLikesReturnFields : List String :=
  "likesCount" :: "isLiked" :: "loading" :: "processing" :: "likePet" ::
  "unlikePet" :: "toggleLike" :: "refresh" :: []

/-- The names of the fields that the `PublicPetProfile` component
destructures from the result of `usePetLikes(petId, pet?.likes || 0)` in
`public-pet-profile.tsx`. -/
def publicPetProfileDestructuredFields : List String :=
  "currentLikes" :: "userLiked" :: "handleLikeToggle" :: "sessionID" :: []

/-- C3 (refutation): NONE of the four fields the public pet profile view
destructures from the tracker's result is a member of the record the
tracker returns — in particular `currentLikes` (rendered as the like
count) and `handleLikeToggle` (invoked on click) are absent, so at runtime
they are `undefined`: the displayed count is not a number and the
like-button handler is not callable.  The sibling caller `PetProfile`
destructures the correct names (`likesCount`, `isLiked`, `processing`,
`toggleLike`), showing the component, not the hook, is the slip. -/
theorem publicPetProfile_destructured_field_missing :
    publicPetProfileDestructuredFields.all
      (fun f => !(usePetLikesReturnFields.contains f)) = true := by
  decide
